import Mathlib

/-!
Verification of the skald consolidation-and-reputation engine.

This file shallowly embeds the Python sources of the repository
(src/reputation/reputation.py, src/consolidation/truthfinderV2.py,
src/skald.py, src/wm.py) as Lean definitions over exact rationals and
reals, and settles the claims of the specification against them.

Floating point values are idealised as rationals (or reals where the
code takes logarithms and exponentials).  NumPy arrays carry an explicit
dtype flag because the source performs in-place array operations whose
success depends on the dtype (an in-place multiply of an integer array
by a Python float raises `UFuncTypeError`); fallible Python code is
embedded with `Option`, `none` standing for a raised exception.
-/

/-- Python scalar values occurring in claim payloads and dataframe cells. -/
inductive PyVal where
  | str (s : String)
  | num (q : ℚ)
  | bool (b : Bool)
  | pynone
deriving DecidableEq, Repr

/-- Python `==` on scalar values (`True == 1`, `False == 0` hold in Python). -/
def pyEq : PyVal → PyVal → Bool
  | .str a, .str b => a == b
  | .num a, .num b => a == b
  | .bool a, .bool b => a == b
  | .bool a, .num b => (if a then (1 : ℚ) else 0) == b
  | .num a, .bool b => a == (if b then (1 : ℚ) else 0)
  | .pynone, .pynone => true
  | _, _ => false

/-- Dtype of a NumPy array: integer (`int64`) or floating (`float64`). -/
inductive DType where
  | int
  | float
deriving DecidableEq, Repr

/-- A NumPy 1-d array: a dtype together with the (idealised, exact) values. -/
structure NArr where
  dtype : DType
  vals : List ℚ
deriving DecidableEq, Repr

/-- In-place multiplication `R *= lf` of an array by a Python float scalar.
NumPy computes a float64 result and refuses to cast it back into an integer
array (casting rule same_kind), raising `UFuncTypeError`; hence `none` on an
integer-dtype array.  On a float array the values are scaled in place. -/
def npMulInPlace (R : NArr) (lf : ℚ) : Option NArr :=
  if R.dtype = DType.int then none
  else some ⟨DType.float, R.vals.map (fun x => lf * x)⟩

/-- In-place addition `R += rating`.  Casting a float64 result into an integer
array raises `UFuncTypeError` (`none`); mismatched lengths raise a broadcast
`ValueError` (`none`).  The dtype of `R` is preserved (the add is in place). -/
def npAddInPlace (R r : NArr) : Option NArr :=
  if R.dtype = DType.int ∧ r.dtype = DType.float then none
  else if R.vals.length ≠ r.vals.length then none
  else some ⟨R.dtype, List.zipWith (fun x y => x + y) R.vals r.vals⟩

/-- The base rate `a = np.full(k, 1 / (1*k))` of reputation.py. -/
def aBase (k : ℕ) : List ℚ := List.replicate k (1 / (1 * (k : ℚ)))

/-- The level vector `pv = np.arange(k) / (k - 1)` of reputation.py. -/
def pv (k : ℕ) : List ℚ := (List.range k).map (fun (i : ℕ) => (i : ℚ) / ((k : ℚ) - 1))

/-- Dot product `np.dot` on rational vectors. -/
def dotQ (xs ys : List ℚ) : ℚ := ((List.zip xs ys).map (fun p => p.1 * p.2)).sum

/-- `Reputation.calculate_score` (reputation.py lines 48-71):
`S = (R + C * a) / (C + sum(R))`. -/
def calculate_score (k : ℕ) (C : ℚ) (R : List ℚ) : List ℚ :=
  let acs := R.sum
  let den := C + acs
  (List.zip R (aBase k)).map (fun p => (p.1 + C * p.2) / den)

/-- `Reputation.point_estimate` (reputation.py lines 73-94): `pe = np.dot(S, pv)`. -/
def point_estimate (k : ℕ) (S : List ℚ) : ℚ := dotQ S (pv k)

/-- A source record as stored by the reputation module (document fields
`sourceId`, `reputation`, `probabilities`, `ratings`).  The ratings array
keeps its NumPy dtype; the probabilities are always produced as floats. -/
structure SourceRec where
  sourceId : String
  reputation : ℚ
  probabilities : List ℚ
  ratings : NArr
deriving DecidableEq, Repr

/-- A rating message as built by `Skald.calculate_ratings`:
`{"sourceId": ..., "rating": [...]}`. -/
structure RatingEntry where
  sourceId : String
  rating : NArr
deriving DecidableEq, Repr

/-- Numeric core of `Reputation.update_reputation` (reputation.py lines
119-163), shared by the stateful and stateless modes once the source record
has been fetched.  The blanket `except` of the source turns any raised
exception into a skipped update, embedded as `none`:
an invalid rating length raises, aging an integer-dtype ratings array with
`lf < 1` raises `UFuncTypeError` inside `R *= self.lf`, and the in-place
`R += rating` raises when it would cast a float into an integer array. -/
def update_reputation (k : ℕ) (C lf : ℚ) (source : SourceRec) (rating : NArr) :
    Option SourceRec :=
  if rating.vals.length ≠ k then none
  else
    match (if lf < 1 then npMulInPlace source.ratings lf else some source.ratings) with
    | none => none
    | some R =>
      match npAddInPlace R rating with
      | none => none
      | some R2 =>
        let S := calculate_score k C R2.vals
        let pe := point_estimate k S
        some ⟨source.sourceId, pe, S, R2⟩

/-- A sequence of stateful `update_reputation` calls on one source: each call
reads the stored record, and a skipped update (`none`) leaves the stored
record unchanged. -/
def update_seq (k : ℕ) (C lf : ℚ) (rec : SourceRec) (rs : List NArr) : SourceRec :=
  rs.foldl (fun acc r => (update_reputation k C lf acc r).getD acc) rec

/-- The record lazily created by `Reputation.get_reputation` on first touch
(reputation.py lines 185-195): uniform probabilities `[1/k] * k`, zero
ratings `[0] * k` (Python integers, hence an integer-dtype array), and the
point estimate of the uniform distribution as reputation. -/
def default_record (k : ℕ) (sid : String) : SourceRec :=
  ⟨sid, point_estimate k (List.replicate k (1 / (k : ℚ))),
    List.replicate k (1 / (k : ℚ)), ⟨DType.int, List.replicate k 0⟩⟩

/-- The stateless lookup `next(s for s in sources if s['sourceId'] == ...)`
of reputation.py lines 116-117; a missing source raises `StopIteration`. -/
def find_source (sources : List SourceRec) (sid : String) : Option SourceRec :=
  sources.find? (fun s => s.sourceId == sid)

/-- One stateless `update_reputation` call: look the source up in the
caller-supplied list, then run the numeric core.  The source list itself is
never mutated; a fresh output record is returned. -/
def update_reputation_stateless (k : ℕ) (C lf : ℚ) (sources : List SourceRec)
    (e : RatingEntry) : Option SourceRec :=
  (find_source sources e.sourceId).bind (fun s => update_reputation k C lf s e.rating)

/-- The rating loop of `Skald.consolidate` (skald.py lines 474-482) in
stateless mode: every iteration calls `update_reputation` with the same
caller-supplied `sources` list and appends the output to `updated_sources`. -/
def apply_ratings (k : ℕ) (C lf : ℚ) (sources : List SourceRec) :
    List RatingEntry → List (Option SourceRec)
  | [] => []
  | r :: rs => update_reputation_stateless k C lf sources r ::
      apply_ratings k C lf sources rs

/-- Replace the record of a source inside a sources list. -/
def replace_source (sources : List SourceRec) (s' : SourceRec) : List SourceRec :=
  sources.map (fun s => if s.sourceId == s'.sourceId then s' else s)

/-- Modelled from the spec for comparison with `apply_ratings` (claim C3):
the sequential folding the spec describes, where each successful update
replaces the source's record so that the next update for the same source
starts from the record the previous update produced. -/
def apply_ratings_seq (k : ℕ) (C lf : ℚ) (sources : List SourceRec) :
    List RatingEntry → List (Option SourceRec)
  | [] => []
  | r :: rs =>
    let o := update_reputation_stateless k C lf sources r
    o :: apply_ratings_seq k C lf
      (match o with
       | some s' => replace_source sources s'
       | none => sources) rs


theorem zip_replicate_eq_map (xs : List ℚ) (c : ℚ) :
    List.zip xs (List.replicate xs.length c) = xs.map (fun x => (x, c)) := by
  induction xs with
  | nil => rfl
  | cons x xs ih =>
    simp only [List.length_cons, List.replicate_succ, List.zip_cons_cons, List.map_cons]
    rw [ih]

theorem calculate_score_eq (k : ℕ) (C : ℚ) (R : List ℚ) (h : R.length = k) :
    calculate_score k C R =
      R.map (fun x => (x + C * (1 / (1 * (k : ℚ)))) / (C + R.sum)) := by
  unfold calculate_score aBase
  rw [← h, zip_replicate_eq_map, List.map_map]
  rfl

theorem sum_map_affine (xs : List ℚ) (c0 den : ℚ) :
    (xs.map (fun x => (x + c0) / den)).sum = (xs.sum + xs.length * c0) / den := by
  induction xs with
  | nil => simp
  | cons x xs ih =>
    simp only [List.map_cons, List.sum_cons, ih, List.length_cons]
    rw [div_add_div_same]
    push_cast
    ring_nf

theorem zipWith_add_nonneg (xs ys : List ℚ) (hx : ∀ x ∈ xs, 0 ≤ x)
    (hy : ∀ y ∈ ys, 0 ≤ y) :
    ∀ q ∈ List.zipWith (fun x y => x + y) xs ys, 0 ≤ q := by
  induction xs generalizing ys with
  | nil => simp
  | cons x xs ih =>
    cases ys with
    | nil => simp
    | cons y ys =>
      intro q hq
      simp only [List.zipWith_cons_cons, List.mem_cons] at hq
      rcases hq with h | h
      · subst h
        exact add_nonneg (hx x (by simp)) (hy y (by simp))
      · exact ih ys (fun a ha => hx a (by simp [ha])) (fun a ha => hy a (by simp [ha])) q h

theorem dotQ_bounds (xs ys : List ℚ) (hx : ∀ x ∈ xs, 0 ≤ x)
    (hy : ∀ y ∈ ys, 0 ≤ y ∧ y ≤ 1) :
    0 ≤ dotQ xs ys ∧ dotQ xs ys ≤ xs.sum := by
  induction xs generalizing ys with
  | nil => simp [dotQ]
  | cons x xs ih =>
    cases ys with
    | nil =>
      refine ⟨le_refl 0, List.sum_nonneg hx⟩
    | cons y ys =>
      have hx0 : 0 ≤ x := hx x (by simp)
      have hy0 := hy y (by simp)
      have ihs := ih ys (fun a ha => hx a (by simp [ha])) (fun a ha => hy a (by simp [ha]))
      constructor
      · simp only [dotQ, List.zip_cons_cons, List.map_cons, List.sum_cons]
        exact add_nonneg (mul_nonneg hx0 hy0.1) ihs.1
      · simp only [dotQ, List.zip_cons_cons, List.map_cons, List.sum_cons]
        have h1 : x * y ≤ x := mul_le_of_le_one_right hx0 hy0.2
        exact add_le_add h1 ihs.2

theorem pv_bounds (k : ℕ) (hk : 2 ≤ k) : ∀ y ∈ pv k, 0 ≤ y ∧ y ≤ 1 := by
  intro y hy
  unfold pv at hy
  rw [List.mem_map] at hy
  obtain ⟨i, hi, rfl⟩ := hy
  rw [List.mem_range] at hi
  have hden : (0 : ℚ) < (k : ℚ) - 1 := by
    have h2 : (2 : ℚ) ≤ (k : ℚ) := by exact_mod_cast hk
    linarith
  constructor
  · exact div_nonneg (Nat.cast_nonneg i) (le_of_lt hden)
  · rw [div_le_one hden]
    have h1 : (i : ℚ) + 1 ≤ (k : ℚ) := by exact_mod_cast hi
    linarith

/-- Invariant of a stored source record: ratings of length `k` and
non-negative, probability scores summing to 1, reputation in `[0, 1]`. -/
def RepInv (k : ℕ) (rec : SourceRec) : Prop :=
  rec.ratings.vals.length = k ∧ (∀ q ∈ rec.ratings.vals, 0 ≤ q) ∧
  rec.probabilities.sum = 1 ∧ 0 ≤ rec.reputation ∧ rec.reputation ≤ 1

theorem score_sum_one (k : ℕ) (R : List ℚ) (hk : 2 ≤ k) (hlen : R.length = k)
    (hR : ∀ q ∈ R, 0 ≤ q) : (calculate_score k (k : ℚ) R).sum = 1 := by
  have hkQ : (0 : ℚ) < (k : ℚ) := by
    have : (0 : ℕ) < k := by omega
    exact_mod_cast this
  have hsum : 0 ≤ R.sum := List.sum_nonneg hR
  have hden : (0 : ℚ) < (k : ℚ) + R.sum := by linarith
  rw [calculate_score_eq k (k : ℚ) R hlen, sum_map_affine, hlen]
  rw [one_mul, mul_one_div, div_self (ne_of_gt hkQ), mul_one]
  rw [add_comm R.sum (k : ℚ)]
  exact div_self (ne_of_gt hden)

theorem score_nonneg (k : ℕ) (R : List ℚ) (hk : 2 ≤ k) (hlen : R.length = k)
    (hR : ∀ q ∈ R, 0 ≤ q) : ∀ p ∈ calculate_score k (k : ℚ) R, 0 ≤ p := by
  intro p hp
  rw [calculate_score_eq k (k : ℚ) R hlen] at hp
  rw [List.mem_map] at hp
  obtain ⟨x, hx, rfl⟩ := hp
  have hkQ : (0 : ℚ) < (k : ℚ) := by
    have : (0 : ℕ) < k := by omega
    exact_mod_cast this
  have hsum : 0 ≤ R.sum := List.sum_nonneg hR
  have hx0 : 0 ≤ x := hR x hx
  have hnum : 0 ≤ x + (k : ℚ) * (1 / (1 * (k : ℚ))) := by positivity
  have hden : 0 ≤ (k : ℚ) + R.sum := by linarith
  exact div_nonneg hnum hden

theorem pe_bounds (k : ℕ) (S : List ℚ) (hk : 2 ≤ k)
    (hS : ∀ p ∈ S, 0 ≤ p) (hsum : S.sum = 1) :
    0 ≤ point_estimate k S ∧ point_estimate k S ≤ 1 := by
  have h := dotQ_bounds S (pv k) hS (pv_bounds k hk)
  exact ⟨h.1, by calc point_estimate k S ≤ S.sum := h.2
                 _ = 1 := hsum⟩

theorem npMul_some (R : NArr) (lf : ℚ) (A : NArr) (h : npMulInPlace R lf = some A) :
    A.vals = R.vals.map (fun x => lf * x) := by
  unfold npMulInPlace at h
  by_cases hd : R.dtype = DType.int
  · rw [if_pos hd] at h
    cases h
  · rw [if_neg hd] at h
    cases h
    rfl

theorem npAdd_some (R r : NArr) (R2 : NArr) (h : npAddInPlace R r = some R2) :
    R2.vals = List.zipWith (fun x y => x + y) R.vals r.vals := by
  unfold npAddInPlace at h
  by_cases hcast : R.dtype = DType.int ∧ r.dtype = DType.float
  · rw [if_pos hcast] at h
    cases h
  · rw [if_neg hcast] at h
    by_cases hl : R.vals.length = r.vals.length
    · rw [if_neg (by simp [hl])] at h
      cases h
      rfl
    · rw [if_pos (by simp [hl])] at h
      cases h

theorem update_reputation_some_inv (k : ℕ) (lf : ℚ) (hk : 2 ≤ k) (hlf0 : 0 < lf)
    (rec : SourceRec) (r : NArr) (rec' : SourceRec) (hrec : RepInv k rec)
    (hr : ∀ q ∈ r.vals, 0 ≤ q)
    (hres : update_reputation k (k : ℚ) lf rec r = some rec') :
    RepInv k rec' := by
  unfold update_reputation at hres
  by_cases hlen : r.vals.length = k
  · rw [if_neg (by simp [hlen])] at hres
    split at hres
    · cases hres
    · rename_i A hA
      have hAvals : A.vals = rec.ratings.vals ∨
          A.vals = rec.ratings.vals.map (fun x => lf * x) := by
        by_cases hlf : lf < 1
        · rw [if_pos hlf] at hA
          exact Or.inr (npMul_some rec.ratings lf A hA)
        · rw [if_neg hlf] at hA
          cases hA
          exact Or.inl rfl
      have hAlen : A.vals.length = k := by
        rcases hAvals with h | h <;> rw [h] <;> simpa using hrec.1
      have hAnn : ∀ q ∈ A.vals, 0 ≤ q := by
        rcases hAvals with h | h <;> rw [h]
        · exact hrec.2.1
        · intro q hq
          rw [List.mem_map] at hq
          obtain ⟨x, hx, rfl⟩ := hq
          exact mul_nonneg (le_of_lt hlf0) (hrec.2.1 x hx)
      split at hres
      · cases hres
      · rename_i R2 hB
        cases hres
        have hR2vals := npAdd_some A r R2 hB
        have hR2len : R2.vals.length = k := by
          rw [hR2vals, List.length_zipWith, hAlen, hlen, min_self]
        have hR2nonneg : ∀ q ∈ R2.vals, 0 ≤ q := by
          rw [hR2vals]
          exact zipWith_add_nonneg A.vals r.vals hAnn hr
        have hSsum : (calculate_score k (k : ℚ) R2.vals).sum = 1 :=
          score_sum_one k R2.vals hk hR2len hR2nonneg
        have hSnn := score_nonneg k R2.vals hk hR2len hR2nonneg
        have hpe := pe_bounds k (calculate_score k (k : ℚ) R2.vals) hk hSnn hSsum
        exact ⟨hR2len, hR2nonneg, hSsum, hpe.1, hpe.2⟩
  · rw [if_pos (by simp [hlen])] at hres
    cases hres

theorem update_preserves_inv (k : ℕ) (lf : ℚ) (hk : 2 ≤ k) (hlf0 : 0 < lf)
    (rec : SourceRec) (r : NArr) (hrec : RepInv k rec)
    (hr : ∀ q ∈ r.vals, 0 ≤ q) :
    RepInv k ((update_reputation k (k : ℚ) lf rec r).getD rec) := by
  rcases hres : update_reputation k (k : ℚ) lf rec r with _ | rec'
  · simpa using hrec
  · rw [Option.getD_some]
    exact update_reputation_some_inv k lf hk hlf0 rec r rec' hrec hr hres

theorem update_seq_inv (k : ℕ) (lf : ℚ) (hk : 2 ≤ k) (hlf0 : 0 < lf)
    (rec : SourceRec) (rs : List NArr) (hrec : RepInv k rec)
    (hr : ∀ r ∈ rs, ∀ q ∈ r.vals, 0 ≤ q) :
    RepInv k (update_seq k (k : ℚ) lf rec rs) := by
  induction rs generalizing rec with
  | nil => exact hrec
  | cons r rs ih =>
    have step := update_preserves_inv k lf hk hlf0 rec r hrec (hr r (by simp))
    have tail : ∀ a ∈ rs, ∀ q ∈ a.vals, 0 ≤ q := fun a ha => hr a (by simp [ha])
    exact ih _ step tail

theorem default_record_inv (k : ℕ) (hk : 2 ≤ k) (sid : String) :
    RepInv k (default_record k sid) := by
  have hkQ : (0 : ℚ) < (k : ℚ) := by
    have : (0 : ℕ) < k := by omega
    exact_mod_cast this
  have hsum : (List.replicate k (1 / (k : ℚ))).sum = 1 := by
    rw [List.sum_replicate, nsmul_eq_mul, mul_one_div, div_self (ne_of_gt hkQ)]
  have hmem : ∀ p ∈ List.replicate k (1 / (k : ℚ)), 0 ≤ p := by
    intro p hp
    rw [List.eq_of_mem_replicate hp]
    positivity
  have hpe := pe_bounds k (List.replicate k (1 / (k : ℚ))) hk hmem hsum
  exact ⟨by simp [default_record], by simp [default_record], hsum, hpe.1, hpe.2⟩

/-- Claim C1: for every `k ≥ 2`, every longevity factor `lf ∈ (0, 1]`, and
every sequence of `update_reputation` calls with non-negative ratings, the
resulting multinomial probability scores sum to exactly 1 (hence certainly
to within `1e-9`) and the reputation point estimate lies in `[0, 1]`.
The a-priori constant is `k`, as `Skald.__init__` always passes `c = self.k`. -/
theorem C1_update_reputation_invariant (k : ℕ) (lf : ℚ) (rs : List NArr)
    (hk : 2 ≤ k) (hlf0 : 0 < lf)
    (hr : ∀ r ∈ rs, ∀ q ∈ r.vals, 0 ≤ q) :
    (update_seq k (k : ℚ) lf (default_record k "s") rs).probabilities.sum = 1 ∧
    |(update_seq k (k : ℚ) lf (default_record k "s") rs).probabilities.sum - 1|
      ≤ 1 / 1000000000 ∧
    0 ≤ (update_seq k (k : ℚ) lf (default_record k "s") rs).reputation ∧
    (update_seq k (k : ℚ) lf (default_record k "s") rs).reputation ≤ 1 := by
  have h := update_seq_inv k lf hk hlf0 (default_record k "s") rs
    (default_record_inv k hk "s") hr
  refine ⟨h.2.2.1, ?_, h.2.2.2.1, h.2.2.2.2⟩
  rw [h.2.2.1]
  norm_num

/-- Witness for C1 at `k = 4`, `lf = 1/2`, with two concrete ratings. -/
theorem C1_update_reputation_invariant_witness :
    (update_seq 4 (4 : ℚ) (1/2) (default_record 4 "s")
      [⟨DType.float, [0,0,0,1]⟩, ⟨DType.int, [1,0,0,0]⟩]).probabilities.sum = 1 ∧
    |(update_seq 4 (4 : ℚ) (1/2) (default_record 4 "s")
      [⟨DType.float, [0,0,0,1]⟩, ⟨DType.int, [1,0,0,0]⟩]).probabilities.sum - 1|
      ≤ 1 / 1000000000 ∧
    0 ≤ (update_seq 4 (4 : ℚ) (1/2) (default_record 4 "s")
      [⟨DType.float, [0,0,0,1]⟩, ⟨DType.int, [1,0,0,0]⟩]).reputation ∧
    (update_seq 4 (4 : ℚ) (1/2) (default_record 4 "s")
      [⟨DType.float, [0,0,0,1]⟩, ⟨DType.int, [1,0,0,0]⟩]).reputation ≤ 1 :=
  C1_update_reputation_invariant 4 (1/2) _ (by norm_num) (by norm_num)
    (by intro r hr q hq
        simp only [List.mem_cons, List.not_mem_nil, or_false] at hr
        rcases hr with h | h <;> subst h <;> simp_all <;>
          rcases hq with h | h <;> subst h <;> norm_num)

/-- Claim C2 (code_bug): with `k = 4`, `lf = 0.5`, starting from accumulated
ratings `[0,0,0,0]`, the spec expects two updates with rating `[0,0,0,1]` to
yield `R = [0,0,0,1]` and then `R = [0,0,0,1.5]`.  The code only does this
when the stored ratings array has float dtype (second and third conjuncts);
on the integer-dtype zero array that `get_reputation` itself creates
(`[0] * k`) and that the API schema (`ratings: list[int]`) supplies, the
in-place `R *= self.lf` raises `UFuncTypeError`, the blanket `except`
swallows it, and the whole update is skipped, returning `None`
(first conjunct). -/
theorem C2_longevity_decay_skipped_on_int_ratings :
    update_reputation 4 4 (1/2)
      ⟨"S1", 1/2, [1/4,1/4,1/4,1/4], ⟨DType.int, [0,0,0,0]⟩⟩
      ⟨DType.int, [0,0,0,1]⟩ = none ∧
    update_reputation 4 4 (1/2)
      ⟨"S1", 1/2, [1/4,1/4,1/4,1/4], ⟨DType.float, [0,0,0,0]⟩⟩
      ⟨DType.int, [0,0,0,1]⟩ =
      some ⟨"S1", 3/5, [1/5,1/5,1/5,2/5], ⟨DType.float, [0,0,0,1]⟩⟩ ∧
    update_reputation 4 4 (1/2)
      ⟨"S1", 3/5, [1/5,1/5,1/5,2/5], ⟨DType.float, [0,0,0,1]⟩⟩
      ⟨DType.int, [0,0,0,1]⟩ =
      some ⟨"S1", 7/11, [2/11,2/11,2/11,5/11], ⟨DType.float, [0,0,0,3/2]⟩⟩ := by
  refine ⟨?_, ?_, ?_⟩
  · simp +decide [update_reputation, npMulInPlace, npAddInPlace]
    norm_num
  · simp +decide only [update_reputation, npMulInPlace, npAddInPlace]
    norm_num [calculate_score, point_estimate, aBase, pv, dotQ, List.replicate,
      List.range_succ]
  · simp +decide only [update_reputation, npMulInPlace, npAddInPlace]
    norm_num [calculate_score, point_estimate, aBase, pv, dotQ, List.replicate,
      List.range_succ]

/-- Counterexample to claim C3: with `k = 2`, `C = 2`, `lf = 1`, one source
`S1` with zero ratings, and two identical one-hot ratings in one request,
the second stateless update still starts from the original record (its
output has accumulated ratings `[1, 0]`), whereas the sequential folding
the claim describes would start from the first update's output and
accumulate `[2, 0]`. -/
theorem C3_stateless_updates_not_sequential :
    apply_ratings 2 2 1 [⟨"S1", 1/2, [1/2,1/2], ⟨DType.int, [0,0]⟩⟩]
      [⟨"S1", ⟨DType.int, [1,0]⟩⟩, ⟨"S1", ⟨DType.int, [1,0]⟩⟩] =
      [some ⟨"S1", 1/3, [2/3,1/3], ⟨DType.int, [1,0]⟩⟩,
       some ⟨"S1", 1/3, [2/3,1/3], ⟨DType.int, [1,0]⟩⟩] ∧
    apply_ratings_seq 2 2 1 [⟨"S1", 1/2, [1/2,1/2], ⟨DType.int, [0,0]⟩⟩]
      [⟨"S1", ⟨DType.int, [1,0]⟩⟩, ⟨"S1", ⟨DType.int, [1,0]⟩⟩] =
      [some ⟨"S1", 1/3, [2/3,1/3], ⟨DType.int, [1,0]⟩⟩,
       some ⟨"S1", 1/4, [3/4,1/4], ⟨DType.int, [2,0]⟩⟩] := by
  constructor
  · simp +decide only [apply_ratings, update_reputation_stateless, find_source,
      List.find?, update_reputation, npMulInPlace, npAddInPlace, Option.bind]
    norm_num [calculate_score, point_estimate, aBase, pv, dotQ, List.replicate,
      List.range_succ]
  · simp +decide only [apply_ratings_seq, replace_source, update_reputation_stateless,
      find_source, List.find?, update_reputation, npMulInPlace, npAddInPlace,
      Option.bind]
    norm_num [calculate_score, point_estimate, aBase, pv, dotQ, List.replicate,
      List.range_succ]

/-- Claim C3 (as amended): in stateless mode the rating loop of
`consolidate` passes the unchanged caller-supplied sources list to every
`update_reputation` call, so the `j`-th output is computed from the original
record for that source, independent of all previous updates in the request;
ratings from the same request do not accumulate. -/
theorem C3_each_update_starts_from_original (k : ℕ) (C lf : ℚ)
    (sources : List SourceRec) (rs : List RatingEntry) (j : ℕ) :
    (apply_ratings k C lf sources rs)[j]? =
      rs[j]?.map (update_reputation_stateless k C lf sources) := by
  induction rs generalizing j with
  | nil => simp [apply_ratings]
  | cons r rs ih =>
    cases j with
    | zero => simp [apply_ratings]
    | succ n => simpa [apply_ratings] using ih n

/-! Embedding of src/consolidation/truthfinderV2.py and the parts of
src/skald.py and src/wm.py exercised by the claims.  Log, exp and sqrt force
the value domain to `ℝ`, so these definitions are noncomputable; every
branching condition remains decidable. -/

/-- A dataframe row (columns source, fact, object, datatype, trustworthiness,
fact_confidence), parameterised by the numeric type of the two score columns. -/
structure Row (α : Type) where
  source : String
  fact : PyVal
  object : String
  datatype : String
  trustworthiness : α
  fact_confidence : α
deriving DecidableEq

/-- Python `float()` on a scalar value: numbers pass through, booleans map
to 0/1, and `float` raises on `None` and on the (non-numeric) strings that
occur in this pipeline; numeric-string parsing is not modelled because no
code path of the claims produces a numeric string under a continuous
datatype. -/
def pyFloat : PyVal → Option ℚ
  | .num q => some q
  | .bool b => some (if b then 1 else 0)
  | _ => none

/-- Python `bool()` on a scalar value (total). -/
def pyBool : PyVal → Bool
  | .str s => !(s == "")
  | .num q => !(q == 0)
  | .bool b => b
  | .pynone => false

/-- `euclidean_distance` (truthfinderV2.py lines 15-16):
`sqrt(sum((a - b)^2 for a, b in zip(x, y)))`. -/
noncomputable def euclidean_distance (x y : List ℚ) : ℝ :=
  Real.sqrt (((List.zip x y).map (fun p => ((p.1 : ℝ) - (p.2 : ℝ)) ^ 2)).sum)

/-- `continuous_implication` (truthfinderV2.py lines 19-27).  The source has
no guard: when `max(f1, f2) = 0` the division `(d - m) / (0 - m)` raises
`ZeroDivisionError` (Python float division by zero), embedded as `none`. -/
noncomputable def continuous_implication (f1 f2 : ℚ) : Option ℝ :=
  let max_value := max f1 f2
  let distance := euclidean_distance [f1] [f2]
  if max_value = 0 then none
  else some (2 * ((distance - (max_value : ℝ)) / (0 - (max_value : ℝ))) - 1)

/-- `categorical_implication` (truthfinderV2.py lines 30-38). -/
noncomputable def categorical_implication (f1 f2 : PyVal) : ℝ :=
  if pyEq f1 f2 then 1 else -1

/-- `string_implication` (truthfinderV2.py lines 41-47):
`2 * (jaro_winkler(f1, f2) - 0.5)`.  The textdistance Jaro-Winkler
similarity `jw` is kept as an explicit parameter; no claim depends on its
values, so all theorems hold for an arbitrary `jw`. -/
noncomputable def string_implication (jw : PyVal → PyVal → ℝ) (f1 f2 : PyVal) : ℝ :=
  2 * (jw f1 f2 - 1 / 2)

/-- `sigmoid` (truthfinderV2.py lines 50-61): `1 / (1 + exp(-x))`. -/
noncomputable def sigmoid (x : ℝ) : ℝ := 1 / (1 + Real.exp (-x))

/-- The per-source summand `-log(1 - t)` of `TruthFinder.confidence_score`
(truthfinderV2.py line 117).  Python's `math.log` raises a math domain
error on a non-positive argument, embedded as `none`; no clamping is
applied anywhere before the logarithm is taken. -/
noncomputable def trustworthiness_score (t : ℝ) : Option ℝ :=
  if 0 < 1 - t then some (-Real.log (1 - t)) else none

/-- A Python loop computing one result per element: the first raised
exception (`none`) aborts the whole computation. -/
def optionMapM {α β : Type} (f : α → Option β) : List α → Option (List β)
  | [] => some []
  | a :: as =>
    match f a with
    | none => none
    | some b => (optionMapM f as).map (fun bs => b :: bs)

/-- A Python loop folding a state over a list: the first raised exception
(`none`) aborts the whole computation. -/
def optionFoldlM {σ α : Type} (f : σ → α → Option σ) : σ → List α → Option σ
  | s, [] => some s
  | s, a :: as =>
    match f s a with
    | none => none
    | some s2 => optionFoldlM f s2 as

/-- `TruthFinder.confidence_score` (truthfinderV2.py lines 105-127): each
row's confidence becomes the sum of `-log(1 - t)` over all rows carrying an
equal fact.  Only trustworthiness is read, so the sequential in-place
writes of the source equal this map. -/
noncomputable def confidence_score (df : List (Row ℝ)) : Option (List (Row ℝ)) :=
  optionMapM (fun row =>
    (optionMapM trustworthiness_score
        ((df.filter (fun r2 => pyEq r2.fact row.fact)).map Row.trustworthiness)).map
      (fun scores => { row with fact_confidence := scores.sum })) df

/-- `df.drop_duplicates("fact")`: keep the first row for each distinct fact. -/
def drop_duplicates_fact : List (Row ℝ) → List (Row ℝ)
  | [] => []
  | r :: rs => r :: drop_duplicates_fact (rs.filter (fun x => !(pyEq x.fact r.fact)))
termination_by l => l.length
decreasing_by
  simp only [List.length_cons]
  have := List.length_filter_le (fun x => !(pyEq x.fact r.fact)) rs
  omega

/-- One summand of the related-facts loop of
`TruthFinder.adjusted_confidence_score` (truthfinderV2.py lines 142-164):
equal facts are skipped, the three recognised datatypes use their
implication function, and any other datatype adds nothing. -/
noncomputable def related_contrib (jw : PyVal → PyVal → ℝ) (row1 row2 : Row ℝ) :
    Option ℝ :=
  if pyEq row1.fact row2.fact then some 0
  else if row1.datatype == "continuous" then
    match pyFloat row2.fact, pyFloat row1.fact with
    | some q2, some q1 =>
      (continuous_implication q2 q1).map (fun i => row2.fact_confidence * i)
    | _, _ => none
  else if row1.datatype == "string" then
    some (row2.fact_confidence * string_implication jw row2.fact row1.fact)
  else if row1.datatype == "categorical" then
    some (row2.fact_confidence * categorical_implication row2.fact row1.fact)
  else some 0

/-- The inner sum of `adjusted_confidence_score` over the deduplicated facts. -/
noncomputable def related_sum (jw : PyVal → PyVal → ℝ) (row1 : Row ℝ)
    (reps : List (Row ℝ)) : Option ℝ :=
  (optionMapM (related_contrib jw row1) reps).map List.sum

/-- `TruthFinder.adjusted_confidence_score` (truthfinderV2.py lines 129-173):
all adjusted values are computed first (dict `adjusted`), then written back. -/
noncomputable def adjusted_confidence_score (influence_related : ℝ)
    (jw : PyVal → PyVal → ℝ) (df : List (Row ℝ)) : Option (List (Row ℝ)) :=
  (optionMapM (fun row1 =>
      (related_sum jw row1 (drop_duplicates_fact df)).map
        (fun s => influence_related * s + row1.fact_confidence)) df).map
    (fun adjusted =>
      List.zipWith (fun row v => { row with fact_confidence := v }) df adjusted)

/-- `TruthFinder.compute_fact_confidence` (truthfinderV2.py lines 175-193):
squash each confidence through `sigmoid(dampening_factor * x)`. -/
noncomputable def compute_fact_confidence (dampening_factor : ℝ)
    (df : List (Row ℝ)) : List (Row ℝ) :=
  df.map (fun row =>
    { row with fact_confidence := sigmoid (dampening_factor * row.fact_confidence) })

/-- The first-occurrence order of distinct values, as `pandas.unique`. -/
def uniqueStrs : List String → List String
  | [] => []
  | s :: rest => s :: uniqueStrs (rest.filter (fun x => !(x == s)))
termination_by l => l.length
decreasing_by
  simp only [List.length_cons]
  have := List.length_filter_le (fun x => !(x == s)) rest
  omega

/-- Writing a processed per-object slice back into the full dataframe at the
positions of that object (`df.loc[indices] = d`). -/
def splice_back {α : Type} : List (Row α) → String → List (Row α) → List (Row α)
  | [], _, _ => []
  | r :: rs, o, repl =>
    if r.object == o then
      match repl with
      | [] => r :: splice_back rs o []
      | x :: xs => x :: splice_back rs o xs
    else r :: splice_back rs o repl

/-- `TruthFinder.update_fact_confidence` (truthfinderV2.py lines 195-221):
per unique object, run confidence, adjustment and squash on that object's
slice and write it back. -/
noncomputable def update_fact_confidence (dampening_factor influence_related : ℝ)
    (jw : PyVal → PyVal → ℝ) (df : List (Row ℝ)) : Option (List (Row ℝ)) :=
  optionFoldlM
    (fun acc o =>
      (confidence_score (acc.filter (fun r => r.object == o))).bind
        (fun d1 => (adjusted_confidence_score influence_related jw d1).map
          (fun d2 => splice_back acc o (compute_fact_confidence dampening_factor d2))))
    df (uniqueStrs (df.map Row.object))

/-- `TruthFinder.update_source_trustworthiness` (truthfinderV2.py lines
223-244): per unique source, trustworthiness becomes the mean
fact confidence over that source's rows. -/
noncomputable def update_source_trustworthiness (df : List (Row ℝ)) : List (Row ℝ) :=
  (uniqueStrs (df.map Row.source)).foldl
    (fun acc s =>
      let cs := (acc.filter (fun r => r.source == s)).map Row.fact_confidence
      acc.map (fun r =>
        if r.source == s then { r with trustworthiness := cs.sum / (cs.length : ℝ) }
        else r))
    df

/-- `TruthFinder.iteration` (truthfinderV2.py lines 246-263). -/
noncomputable def iteration (dampening_factor influence_related : ℝ)
    (jw : PyVal → PyVal → ℝ) (df : List (Row ℝ)) : Option (List (Row ℝ)) :=
  (update_fact_confidence dampening_factor influence_related jw df).map
    update_source_trustworthiness

/-- `TruthFinder.run` (truthfinderV2.py lines 284-317): fact confidence is
zeroed, then exactly one iteration runs; the `max_iterations` loop and the
convergence test are commented out in the source, so both parameters are
accepted and ignored. -/
noncomputable def run (dampening_factor influence_related : ℝ)
    (jw : PyVal → PyVal → ℝ) (df : List (Row ℝ)) (maxIterations : ℕ)
    (threshold : ℝ) : Option (List (Row ℝ)) :=
  iteration dampening_factor influence_related jw
    (df.map (fun r => { r with fact_confidence := 0 }))

/-! Embedding of the Skald orchestration layer (src/skald.py) and the claim
normalisation of the workload manager (src/wm.py). -/

/-- A Python dict as received in the request payload (JSON object). -/
def PyDict : Type := List (String × PyVal)

/-- Lookup `d[key]` / `key in d` on a Python dict. -/
def dictGet (d : PyDict) (key : String) : Option PyVal :=
  (d.find? (fun p => p.1 == key)).map (fun p => p.2)

/-- Membership test `key in d` on a Python dict. -/
def dictHas (d : PyDict) (key : String) : Bool :=
  (d.find? (fun p => p.1 == key)).isSome

/-- Test for `isinstance(v, str)` on a looked-up value. -/
def isStrVal : Option PyVal → Bool
  | some (.str _) => true
  | _ => false

/-- `Skald.validate_input` (skald.py lines 88-149): each affirmation must be
a dict containing the keys of `fields = ('sourceId', 'object', 'fact')`,
with string-valued `sourceId` and `object`.  The datatype check of the
source is commented out, and the value of `fact` is never inspected. -/
def validate_input (input : List PyDict) : Bool :=
  input.all (fun a =>
    if dictHas a "sourceId" && dictHas a "object" && dictHas a "fact" then
      if !(isStrVal (dictGet a "sourceId")) then false
      else if !(isStrVal (dictGet a "object")) then false
      else true
    else false)

/-- A normalised affirmation as produced by `WorkloadManager.convert_claims`:
these dicts always carry string `sourceId`, `object` and `datatype`. -/
structure Affirmation where
  sourceId : String
  object : String
  datatype : String
  fact : PyVal
deriving DecidableEq, Repr

/-- `Skald.build_dataframe` (skald.py lines 237-292), stateless branch: each
affirmation becomes a row whose trustworthiness is seeded with the source's
reputation, looked up in the caller-supplied sources (a missing source makes
the lookup raise, the blanket `except` returns `None`).  No clamping is
applied to the reputation.  The stateful branch (a `get_reputation` store
round-trip) is outside the embedded fragment. -/
def build_dataframe (sources : List SourceRec) (input : List Affirmation) :
    Option (List (Row ℚ)) :=
  optionMapM (fun aff =>
    (find_source sources aff.sourceId).map (fun s =>
      ⟨aff.sourceId, aff.fact, aff.object, aff.datatype, s.reputation, 0⟩)) input

/-- Cast the rational seed dataframe into the real-valued dataframe consumed
by TruthFinder. -/
noncomputable def rowToReal (r : Row ℚ) : Row ℝ :=
  ⟨r.source, r.fact, r.object, r.datatype, (r.trustworthiness : ℝ),
    (r.fact_confidence : ℝ)⟩

/-- Python `int()` on a float: truncation toward zero. -/
def pyInt (q : ℚ) : ℤ := if 0 ≤ q then ⌊q⌋ else ⌈q⌉

/-- The one-hot rating of `Skald.calculate_ratings` (skald.py lines 380-387):
`rating = [0] * k; index = (k-1) if fc == 1 else int(fc * k); rating[index] = 1`.
Python list entries are integers. -/
def rating_vector (k : ℕ) (c : ℚ) : List ℚ :=
  (List.replicate k 0).set (if c = 1 then k - 1 else (pyInt (c * k)).toNat) 1

/-- `Skald.calculate_ratings` (skald.py lines 364-404): one rating entry per
dataframe row, keyed by the row's source. -/
def calculate_ratings (k : ℕ) (df : List (Row ℚ)) : List RatingEntry :=
  df.map (fun row => ⟨row.source, ⟨DType.int, rating_vector k row.fact_confidence⟩⟩)

/-- A one-hot vector of length `k` with the 1 at index `i`. -/
def oneHot (k i : ℕ) : List ℚ :=
  (List.range k).map (fun j => if j = i then 1 else 0)

/-- Leading-match test on character lists. -/
def charsLead : List Char → List Char → Bool
  | _, [] => true
  | [], _ :: _ => false
  | a :: as, b :: bs => a == b && charsLead as bs

/-- Containment test on character lists. -/
def charsSub : List Char → List Char → Bool
  | [], pat => pat.isEmpty
  | a :: as, pat => charsLead (a :: as) pat || charsSub as pat

/-- Python's substring containment `pat in hay` used by
`Skald.build_response` (skald.py line 306). -/
def strHasSub (hay pat : String) : Bool := charsSub hay.data pat.data

/-- Python `str.removeprefix("address-")` used at skald.py line 328. -/
def removeAddressMarker (s : String) : String :=
  if s.startsWith "address-" then s.drop 8 else s

/-- Round-half-to-even on a real number, the tie rule of Python's `round`. -/
noncomputable def roundHalfToEven (x : ℝ) : ℤ :=
  if Int.fract x < 1 / 2 then ⌊x⌋
  else if 1 / 2 < Int.fract x then ⌊x⌋ + 1
  else if Even ⌊x⌋ then ⌊x⌋ else ⌊x⌋ + 1

/-- Python `round(x, 3)` as used on confidences in `build_response`. -/
noncomputable def round3 (x : ℝ) : ℝ := (roundHalfToEven (x * 1000) : ℝ) / 1000

/-- Stable insertion into a descending-by-confidence list. -/
noncomputable def insert_desc (r : Row ℝ) : List (Row ℝ) → List (Row ℝ)
  | [] => [r]
  | x :: xs =>
    if r.fact_confidence > x.fact_confidence then r :: x :: xs
    else x :: insert_desc r xs

/-- `df.sort_values(by=['fact_confidence'], ascending=False)`.  The claims
only sort rows with pairwise distinct confidences, where every sort agrees
with this insertion sort. -/
noncomputable def sort_desc (df : List (Row ℝ)) : List (Row ℝ) :=
  df.foldr insert_desc []

/-- A claim inside a response object: either the merged-address form
`{"fact": {field: value, ...}, "confidence": c}` or the generic form
`{"fact": v, "confidence": c, "sourceId": s}`. -/
inductive RespClaim where
  | addr (fact : List (String × PyVal)) (confidence : ℝ)
  | entry (fact : PyVal) (confidence : ℝ) (sourceId : String)

/-- A response element `{"name": ..., "claims": [...]}` of `build_response`. -/
structure RespObj where
  name : String
  claims : List RespClaim

/-- The per-row claim of the generic branch of `build_response` (skald.py
lines 350-357): the fact is coerced with `float` for continuous rows (which
raises on non-numeric facts) and with `bool` for boolean rows, and the
confidence is rounded to three decimals. -/
noncomputable def coerce_fact (r : Row ℝ) : Option RespClaim :=
  if r.datatype == "continuous" then
    (pyFloat r.fact).map (fun q =>
      RespClaim.entry (.num q) (round3 r.fact_confidence) r.source)
  else if r.datatype == "boolean" then
    some (RespClaim.entry (.bool (pyBool r.fact)) (round3 r.fact_confidence) r.source)
  else some (RespClaim.entry r.fact (round3 r.fact_confidence) r.source)

/-- The address branch of `build_response` (skald.py lines 306-339): per
unique object value, take the fact of the highest-confidence row and
accumulate its confidence; the claim's confidence is the rounded mean.
An empty slice would make `iloc[0]` raise, embedded as `none`. -/
noncomputable def address_fold (df : List (Row ℝ))
    (acc : List (String × PyVal) × ℝ × ℕ) (o : String) :
    Option (List (String × PyVal) × ℝ × ℕ) :=
  match (sort_desc (df.filter (fun r => r.object == o))).head? with
  | none => none
  | some top => some (acc.1 ++ [(removeAddressMarker o, top.fact)],
      acc.2.1 + top.fact_confidence, acc.2.2 + 1)

/-- The accumulation over unique address fields, followed by the rounded
mean confidence. -/
noncomputable def address_claim (df : List (Row ℝ)) : Option RespObj :=
  (optionFoldlM (address_fold df) ([], 0, 0) (uniqueStrs (df.map Row.object))).map
    (fun acc =>
      ⟨"address", [RespClaim.addr acc.1 (round3 (acc.2.1 / (acc.2.2 : ℝ)))]⟩)

/-- `Skald.build_response` (skald.py lines 294-362).  The branch test is the
substring containment `"address" in dataframe['object'].iloc[0]` on the
first row's object value; an empty dataframe or a failing fact coercion
raises, and the enclosing `except` returns `None`. -/
noncomputable def build_response (df : List (Row ℝ)) : Option RespObj :=
  match df.head? with
  | none => none
  | some r0 =>
    if strHasSub r0.object "address" then address_claim df
    else (optionMapM coerce_fact (sort_desc df)).map (fun claims => ⟨r0.object, claims⟩)

/-- The optional address fields of the API `Address` model (api.py 58-70). -/
structure Address where
  street : Option String
  suburb : Option String
  province : Option String
  city : Option String
  district : Option String
  state : Option String
  postalCode : Option String
  country : Option String
deriving DecidableEq, Repr

/-- Iterating a pydantic `Address` model yields its `(name, value)` pairs in
declaration order. -/
def addressItems (a : Address) : List (String × Option String) :=
  [("street", a.street), ("suburb", a.suburb), ("province", a.province),
   ("city", a.city), ("district", a.district), ("state", a.state),
   ("postalCode", a.postalCode), ("country", a.country)]

/-- The `fact` field of an incoming claim (api.py `Claim`): a scalar, a list
of strings, or an address record. -/
inductive ClaimFact where
  | scalar (v : PyVal)
  | strList (xs : List String)
  | addr (a : Address)
deriving DecidableEq, Repr

/-- An incoming claim `{sourceId, fact}` (api.py `Claim`). -/
structure InClaim where
  sourceId : String
  fact : ClaimFact
deriving DecidableEq, Repr

/-- `WorkloadManager.convert_claims` (wm.py lines 46-111): address facts
explode into one string row per non-null field with object `name + "-" +
field`; list facts explode into one row per element; every other datatype
passes through as a single row.  Shapes that mismatch the datatype are not
modelled (in Python they raise or iterate meaninglessly). -/
def convert_claims (object datatype : String) (claims : List InClaim) :
    List Affirmation :=
  claims.flatMap (fun claim =>
    if datatype == "address" then
      match claim.fact with
      | .addr a => (addressItems a).filterMap (fun f =>
          f.2.map (fun v =>
            ⟨claim.sourceId, object ++ "-" ++ f.1, "string", PyVal.str v⟩))
      | _ => []
    else if datatype == "list-string" then
      match claim.fact with
      | .strList xs => xs.map (fun e =>
          ⟨claim.sourceId, object, "string", PyVal.str e⟩)
      | _ => []
    else if datatype == "list-categorical" then
      match claim.fact with
      | .strList xs => xs.map (fun e =>
          ⟨claim.sourceId, object, "categorical", PyVal.str e⟩)
      | _ => []
    else
      match claim.fact with
      | .scalar v => [⟨claim.sourceId, object, datatype, v⟩]
      | _ => [])

/-! Claims about the implication functions, validation, and ratings. -/

/-- Counterexample to claim C5: at `f1 = f2 = 0` the continuous implication
does not return +1; the division `(d - m) / (0 - m)` raises
`ZeroDivisionError` (there is no `m == 0` guard in the source). -/
theorem C5_continuous_implication_zero_fails :
    continuous_implication 0 0 = none := by
  simp [continuous_implication]

/-- Claim C5 (as amended): `continuous_implication(x, x) = 1` for every
`x > 0`, but at `(0, 0)` the function raises `ZeroDivisionError` instead of
returning +1 (inside the pipeline that call is unreachable for non-negative
facts, because equal facts are skipped before the implication is taken). -/
theorem C5_continuous_implication_self (x : ℚ) (hx : 0 < x) :
    continuous_implication x x = some 1 ∧ continuous_implication 0 0 = none := by
  constructor
  · have hne : x ≠ 0 := ne_of_gt hx
    have hdist : euclidean_distance [x] [x] = 0 := by
      simp [euclidean_distance]
    have hx0 : ((x : ℝ)) ≠ 0 := by exact_mod_cast hne
    have hden : (0 : ℝ) - (x : ℝ) ≠ 0 := by
      intro h
      apply hx0
      linarith
    rw [continuous_implication]
    simp only [max_self, hdist, if_neg hne]
    rw [div_self hden]
    norm_num
  · simp [continuous_implication]

/-- Witness for C5 at `x = 1`. -/
theorem C5_continuous_implication_self_witness :
    continuous_implication 1 1 = some 1 ∧ continuous_implication 0 0 = none :=
  C5_continuous_implication_self 1 (by norm_num)

theorem dictHas_of_get {d : PyDict} {key : String} {v : PyVal}
    (h : dictGet d key = some v) : dictHas d key = true := by
  unfold dictGet at h
  unfold dictHas
  cases hf : d.find? (fun p => p.1 == key) with
  | none => rw [hf] at h; cases h
  | some p => simp [hf]

/-- Claim C10: `validate_input` accepts every claims list whose elements
carry the keys `sourceId`, `object` and `fact` with string-valued `sourceId`
and `object`; the `datatype` key and the value of `fact` are never
inspected (the datatype check is commented out in the source). -/
theorem C10_validate_input_ignores_datatype_and_fact (input : List PyDict)
    (h : ∀ a ∈ input,
      (∃ s, dictGet a "sourceId" = some (.str s)) ∧
      (∃ s, dictGet a "object" = some (.str s)) ∧
      (dictGet a "fact").isSome) :
    validate_input input = true := by
  unfold validate_input
  rw [List.all_eq_true]
  intro a ha
  obtain ⟨⟨s1, hs1⟩, ⟨s2, hs2⟩, hf⟩ := h a ha
  have h1 := dictHas_of_get hs1
  have h2 := dictHas_of_get hs2
  have h3 : dictHas a "fact" = true := by
    unfold dictGet at hf
    unfold dictHas
    cases hfind : a.find? (fun p => p.1 == "fact") with
    | none => rw [hfind] at hf; simp at hf
    | some p => simp [hfind]
  simp [h1, h2, h3, hs1, hs2, isStrVal]

/-- Witness for C10: a claim with a numeric `datatype` and a numeric `fact`
still validates. -/
theorem C10_validate_input_witness :
    validate_input [[("sourceId", PyVal.str "S1"), ("object", PyVal.str "o"),
      ("fact", PyVal.num 3), ("datatype", PyVal.num 42)]] = true :=
  C10_validate_input_ignores_datatype_and_fact _ (by
    intro a ha
    simp only [List.mem_singleton] at ha
    subst ha
    exact ⟨⟨"S1", rfl⟩, ⟨"o", rfl⟩, rfl⟩)

theorem oneHot_zero (k : ℕ) : oneHot (k + 1) 0 = 1 :: List.replicate k 0 := by
  unfold oneHot
  rw [List.range_succ_eq_map, List.map_cons, List.map_map]
  simp only [List.cons.injEq]
  refine ⟨by norm_num, ?_⟩
  have h : ((fun j => if j = 0 then (1 : ℚ) else 0) ∘ Nat.succ) =
      (fun _ => (0 : ℚ)) := by
    funext j
    simp [Function.comp]
  rw [h, List.map_const', List.length_range]

theorem oneHot_succ (k i : ℕ) : oneHot (k + 1) (i + 1) = 0 :: oneHot k i := by
  unfold oneHot
  rw [List.range_succ_eq_map, List.map_cons, List.map_map]
  simp only [List.cons.injEq]
  refine ⟨by norm_num, ?_⟩
  congr 1
  funext j
  simp [Function.comp]

theorem set_replicate_eq_oneHot : ∀ (k i : ℕ), i < k →
    (List.replicate k (0 : ℚ)).set i 1 = oneHot k i := by
  intro k
  induction k with
  | zero => intro i hi; omega
  | succ k ih =>
    intro i hi
    cases i with
    | zero =>
      rw [oneHot_zero]
      simp [List.replicate_succ]
    | succ i' =>
      rw [oneHot_succ]
      simp only [List.replicate_succ, List.set_cons_succ]
      rw [ih i' (by omega)]

theorem rating_vector_eq_oneHot (k : ℕ) (c : ℚ) (hk : 2 ≤ k) (h0 : 0 ≤ c)
    (h1 : c ≤ 1) :
    rating_vector k c = oneHot k (min (k - 1) (⌊c * (k : ℚ)⌋).toNat) := by
  have hkQ : (0 : ℚ) < (k : ℚ) := by
    have : (0 : ℕ) < k := by omega
    exact_mod_cast this
  unfold rating_vector
  by_cases hc1 : c = 1
  · subst hc1
    rw [if_pos rfl]
    have hfloor : ⌊(1 : ℚ) * (k : ℚ)⌋ = (k : ℤ) := by
      rw [one_mul]
      exact Int.floor_natCast k
    rw [hfloor]
    have hmin : min (k - 1) ((k : ℤ)).toNat = k - 1 := by
      rw [Int.toNat_natCast]
      omega
    rw [hmin]
    exact set_replicate_eq_oneHot k (k - 1) (by omega)
  · rw [if_neg hc1]
    have hck0 : 0 ≤ c * (k : ℚ) := mul_nonneg h0 (le_of_lt hkQ)
    have hpy : pyInt (c * (k : ℚ)) = ⌊c * (k : ℚ)⌋ := by
      unfold pyInt
      rw [if_pos hck0]
    have hlt : c * (k : ℚ) < (k : ℚ) := by
      have hc1' : c < 1 := lt_of_le_of_ne h1 hc1
      nlinarith
    have hfloor_lt : ⌊c * (k : ℚ)⌋ < (k : ℤ) := by
      rw [Int.floor_lt]
      exact_mod_cast hlt
    have hfloor_nonneg : 0 ≤ ⌊c * (k : ℚ)⌋ := Int.floor_nonneg.mpr hck0
    have htoNat : (⌊c * (k : ℚ)⌋).toNat < k := by omega
    have hmin : min (k - 1) (⌊c * (k : ℚ)⌋).toNat = (⌊c * (k : ℚ)⌋).toNat := by
      omega
    rw [hpy, hmin]
    exact set_replicate_eq_oneHot k _ htoNat

/-- Claim C9: for rows whose confidence lies in `[0, 1]` (as the sigmoid
squash guarantees) and `k ≥ 2`, `calculate_ratings` produces per row a
one-hot rating of length `k` whose hot index is
`min(k - 1, floor(confidence * k))`, which is always within `0 .. k-1`. -/
theorem C9_calculate_ratings_one_hot (k : ℕ) (df : List (Row ℚ)) (hk : 2 ≤ k)
    (hc : ∀ r ∈ df, 0 ≤ r.fact_confidence ∧ r.fact_confidence ≤ 1) :
    calculate_ratings k df = df.map (fun r =>
      ⟨r.source, ⟨DType.int,
        oneHot k (min (k - 1) (⌊r.fact_confidence * (k : ℚ)⌋).toNat)⟩⟩) ∧
    ∀ r ∈ df, min (k - 1) (⌊r.fact_confidence * (k : ℚ)⌋).toNat < k := by
  constructor
  · unfold calculate_ratings
    apply List.map_congr_left
    intro r hr
    rw [rating_vector_eq_oneHot k r.fact_confidence hk (hc r hr).1 (hc r hr).2]
  · intro r hr
    omega

/-- Witness for C9 at `k = 4` with confidences 1/2 and 1. -/
theorem C9_calculate_ratings_one_hot_witness :
    calculate_ratings 4 [⟨"S1", PyVal.str "f", "o", "categorical", 1/2, 1/2⟩,
        ⟨"S2", PyVal.str "g", "o", "categorical", 1/2, 1⟩] =
      [⟨"S1", ⟨DType.int, oneHot 4 (min 3 (⌊(1/2 : ℚ) * 4⌋).toNat)⟩⟩,
       ⟨"S2", ⟨DType.int, oneHot 4 (min 3 (⌊(1 : ℚ) * 4⌋).toNat)⟩⟩] ∧
    ∀ r ∈ ([⟨"S1", PyVal.str "f", "o", "categorical", 1/2, 1/2⟩,
        ⟨"S2", PyVal.str "g", "o", "categorical", 1/2, 1⟩] : List (Row ℚ)),
      min (4 - 1) (⌊r.fact_confidence * (4 : ℚ)⌋).toNat < 4 :=
  C9_calculate_ratings_one_hot 4 _ (by norm_num) (by
    intro r hr
    simp only [List.mem_cons, List.not_mem_nil, or_false] at hr
    rcases hr with h | h <;> subst h <;> norm_num)

theorem optionMapM_some_of_forall {α β : Type} (f : α → Option β) (l : List α)
    (h : ∀ a ∈ l, (f a).isSome) :
    ∃ out, optionMapM f l = some out ∧ out.length = l.length := by
  induction l with
  | nil => exact ⟨[], rfl, rfl⟩
  | cons x xs ih =>
    obtain ⟨y, hy⟩ := Option.isSome_iff_exists.mp (h x (by simp))
    obtain ⟨out, hout, hlen⟩ := ih (fun a ha => h a (by simp [ha]))
    refine ⟨y :: out, ?_, by simp [hlen]⟩
    simp [optionMapM, hy, hout]

/-- Counterexample to claim C4: a stateless caller may supply reputation 1
(`validate_sources` only checks that it is a float); `build_dataframe` seeds
the row's trustworthiness with it unclamped, and `confidence_score` then
raises a math domain error in `-log(1 - 1)` instead of being total. -/
theorem C4_trustworthiness_one_fails :
    build_dataframe [⟨"S1", 1, [1/2, 1/2], ⟨DType.int, [0, 0]⟩⟩]
      [⟨"S1", "color", "categorical", PyVal.str "red"⟩] =
      some [⟨"S1", PyVal.str "red", "color", "categorical", 1, 0⟩] ∧
    confidence_score
      [rowToReal ⟨"S1", PyVal.str "red", "color", "categorical", 1, 0⟩] = none := by
  constructor
  · rfl
  · simp +decide [confidence_score, optionMapM, rowToReal, trustworthiness_score,
      pyEq]

/-- Claim C4 (as amended): no clamping to `[1e-9, 1 - 1e-9]` exists anywhere;
the trustworthiness is used as-is in `-log(1 - t)`.  The computation is
total whenever every row's trustworthiness is below 1 — which holds for
every reputation the reputation module itself produces — but fails when a
caller-supplied reputation equals 1. -/
theorem C4_confidence_score_total_below_one (df : List (Row ℝ))
    (h : ∀ r ∈ df, r.trustworthiness < 1) :
    ∃ out, confidence_score df = some out ∧ out.length = df.length := by
  apply optionMapM_some_of_forall
  intro row hrow
  obtain ⟨scores, hs, _⟩ := optionMapM_some_of_forall trustworthiness_score
    ((df.filter (fun r2 => pyEq r2.fact row.fact)).map Row.trustworthiness)
    (by
      intro t ht
      rw [List.mem_map] at ht
      obtain ⟨r2, hr2, rfl⟩ := ht
      have hmem : r2 ∈ df := List.mem_of_mem_filter hr2
      rw [trustworthiness_score, if_pos (by linarith [h r2 hmem])]
      rfl)
  rw [hs]
  rfl

/-- Witness for C4 (amended) on a single row with trustworthiness 1/2. -/
theorem C4_confidence_score_total_below_one_witness :
    ∃ out, confidence_score
      [⟨"S1", PyVal.str "red", "color", "categorical", (1/2 : ℝ), 0⟩] = some out ∧
      out.length =
        ([⟨"S1", PyVal.str "red", "color", "categorical", (1/2 : ℝ), 0⟩] :
          List (Row ℝ)).length :=
  C4_confidence_score_total_below_one _ (by
    intro r hr
    simp only [List.mem_singleton] at hr
    subst hr
    norm_num)

theorem optionMapM_getElem {α β : Type} (f : α → Option β) :
    ∀ (l : List α) (res : List β), optionMapM f l = some res →
      ∀ (i : ℕ) (x : α), l[i]? = some x →
        ∃ y, f x = some y ∧ res[i]? = some y := by
  intro l
  induction l with
  | nil =>
    intro res h i x hx
    simp at hx
  | cons a as ih =>
    intro res h i x hx
    unfold optionMapM at h
    cases hfa : f a with
    | none => rw [hfa] at h; cases h
    | some y =>
      rw [hfa] at h
      cases hmm : optionMapM f as with
      | none => rw [hmm] at h; cases h
      | some ys =>
        rw [hmm] at h
        simp only [Option.map_some', Option.some_inj] at h
        subst h
        cases i with
        | zero =>
          simp only [List.getElem?_cons_zero, Option.some_inj] at hx
          subst hx
          exact ⟨y, hfa, by simp⟩
        | succ n =>
          simp only [List.getElem?_cons_succ] at hx
          obtain ⟨z, hz1, hz2⟩ := ih ys hmm n x hx
          exact ⟨z, hz1, by simpa using hz2⟩

theorem getElem?_zipWith_some {α β γ : Type} (g : α → β → γ) :
    ∀ (l1 : List α) (l2 : List β) (i : ℕ) (x : α) (y : β),
      l1[i]? = some x → l2[i]? = some y →
      (List.zipWith g l1 l2)[i]? = some (g x y) := by
  intro l1
  induction l1 with
  | nil => intro l2 i x y hx hy; simp at hx
  | cons a as ih =>
    intro l2 i x y hx hy
    cases l2 with
    | nil => simp at hy
    | cons b bs =>
      cases i with
      | zero =>
        simp only [List.getElem?_cons_zero, Option.some_inj] at hx hy
        subst hx
        subst hy
        simp [List.zipWith_cons_cons]
      | succ n =>
        simp only [List.getElem?_cons_succ] at hx hy
        simpa [List.zipWith_cons_cons] using ih bs n x y hx hy

theorem related_contrib_unrecognized (jw : PyVal → PyVal → ℝ) (row1 row2 : Row ℝ)
    (h1 : row1.datatype ≠ "continuous") (h2 : row1.datatype ≠ "string")
    (h3 : row1.datatype ≠ "categorical") :
    related_contrib jw row1 row2 = some 0 := by
  unfold related_contrib
  by_cases hpe : pyEq row1.fact row2.fact
  · rw [if_pos hpe]
  · rw [if_neg hpe, if_neg (by simp [h1]), if_neg (by simp [h2]),
      if_neg (by simp [h3])]

theorem related_sum_unrecognized (jw : PyVal → PyVal → ℝ) (row1 : Row ℝ)
    (reps : List (Row ℝ)) (h1 : row1.datatype ≠ "continuous")
    (h2 : row1.datatype ≠ "string") (h3 : row1.datatype ≠ "categorical") :
    related_sum jw row1 reps = some 0 := by
  unfold related_sum
  have hmm : ∀ rs : List (Row ℝ), optionMapM (related_contrib jw row1) rs =
      some (List.replicate rs.length (0 : ℝ)) := by
    intro rs
    induction rs with
    | nil => rfl
    | cons r rs ih =>
      unfold optionMapM
      rw [related_contrib_unrecognized jw row1 r h1 h2 h3, ih]
      simp [List.replicate_succ]
  rw [hmm reps]
  simp [List.sum_replicate]

/-- Claim C6 (as amended): in the related-fact adjustment a row whose
datatype is `"boolean"` matches none of the continuous/string/categorical
branches, so its related-fact sum is 0 and the row leaves the adjustment
step completely unchanged — it is treated as an unrecognized datatype, not
like a categorical row. -/
theorem C6_boolean_rows_pass_through_adjustment (influence_related : ℝ)
    (jw : PyVal → PyVal → ℝ) (df out : List (Row ℝ)) (i : ℕ) (row : Row ℝ)
    (hrow : df[i]? = some row) (hb : row.datatype = "boolean")
    (hout : adjusted_confidence_score influence_related jw df = some out) :
    out[i]? = some row := by
  unfold adjusted_confidence_score at hout
  cases hmap : optionMapM (fun row1 =>
      (related_sum jw row1 (drop_duplicates_fact df)).map
        (fun s => influence_related * s + row1.fact_confidence)) df with
  | none => rw [hmap] at hout; cases hout
  | some adjusted =>
    rw [hmap] at hout
    simp only [Option.map_some', Option.some_inj] at hout
    obtain ⟨v, hv1, hv2⟩ := optionMapM_getElem _ df adjusted hmap i row hrow
    rw [related_sum_unrecognized jw row (drop_duplicates_fact df)
      (by rw [hb]; decide) (by rw [hb]; decide) (by rw [hb]; decide)] at hv1
    simp only [Option.map_some', Option.some_inj] at hv1
    rw [← hout]
    rw [getElem?_zipWith_some _ df adjusted i row v hrow hv2]
    rw [← hv1]
    have hval : influence_related * 0 + row.fact_confidence =
        row.fact_confidence := by ring
    rw [hval]

/-- Evaluation of the adjustment step on a concrete two-row boolean table:
both rows pass through unchanged. -/
theorem adjusted_bool_eval :
    adjusted_confidence_score (1/2 : ℝ) (fun _ _ => 0)
      [⟨"S1", PyVal.bool true, "b", "boolean", 1/2, 1/2⟩,
       ⟨"S2", PyVal.bool false, "b", "boolean", 1/2, 1/2⟩] =
      some [⟨"S1", PyVal.bool true, "b", "boolean", 1/2, 1/2⟩,
            ⟨"S2", PyVal.bool false, "b", "boolean", 1/2, 1/2⟩] := by
  simp +decide [adjusted_confidence_score, optionMapM, related_sum, related_contrib,
    drop_duplicates_fact, pyEq]

/-- Witness for C6 (amended) at the first row of the two-row boolean table. -/
theorem C6_boolean_rows_pass_through_adjustment_witness :
    ∃ out, adjusted_confidence_score (1/2 : ℝ) (fun _ _ => 0)
      [⟨"S1", PyVal.bool true, "b", "boolean", 1/2, 1/2⟩,
       ⟨"S2", PyVal.bool false, "b", "boolean", 1/2, 1/2⟩] = some out ∧
      out[0]? = some ⟨"S1", PyVal.bool true, "b", "boolean", 1/2, 1/2⟩ :=
  ⟨_, adjusted_bool_eval,
    C6_boolean_rows_pass_through_adjustment (1/2) (fun _ _ => 0) _ _ 0
      ⟨"S1", PyVal.bool true, "b", "boolean", 1/2, 1/2⟩ rfl rfl adjusted_bool_eval⟩

/-- Counterexample to claim C6: the same two-row table under datatype
`"boolean"` leaves both confidences at 1/2 (contribution 0, unrecognized
datatype), while under datatype `"categorical"` the categorical implication
adjusts both to 1/4; boolean rows are therefore not adjusted the way
categorical rows are. -/
theorem C6_boolean_differs_from_categorical :
    adjusted_confidence_score (1/2 : ℝ) (fun _ _ => 0)
      [⟨"S1", PyVal.bool true, "b", "boolean", 1/2, 1/2⟩,
       ⟨"S2", PyVal.bool false, "b", "boolean", 1/2, 1/2⟩] =
      some [⟨"S1", PyVal.bool true, "b", "boolean", 1/2, 1/2⟩,
            ⟨"S2", PyVal.bool false, "b", "boolean", 1/2, 1/2⟩] ∧
    adjusted_confidence_score (1/2 : ℝ) (fun _ _ => 0)
      [⟨"S1", PyVal.bool true, "b", "categorical", 1/2, 1/2⟩,
       ⟨"S2", PyVal.bool false, "b", "categorical", 1/2, 1/2⟩] =
      some [⟨"S1", PyVal.bool true, "b", "categorical", 1/2, 1/4⟩,
            ⟨"S2", PyVal.bool false, "b", "categorical", 1/2, 1/4⟩] ∧
    (1/2 : ℝ) ≠ 1/4 := by
  refine ⟨adjusted_bool_eval, ?_, by norm_num⟩
  simp +decide [adjusted_confidence_score, optionMapM, related_sum, related_contrib,
    drop_duplicates_fact, pyEq, categorical_implication]
  norm_num

theorem insert_desc_nil (r : Row ℝ) : insert_desc r [] = [r] := rfl

theorem insert_desc_cons (r x : Row ℝ) (xs : List (Row ℝ)) :
    insert_desc r (x :: xs) =
      if r.fact_confidence > x.fact_confidence then r :: x :: xs
      else x :: insert_desc r xs := rfl

/-- Counterexample to claim C7: object "hq" with datatype "address"
normalizes to the two rows `hq-street` / `hq-city` (that part of the claim
holds), but the response element is not named "address": the builder
recognizes an address object by the substring "address" in the first row's
object value, which "hq-street" does not contain, so the generic branch
runs and the element's name is "hq-street". -/
theorem C7_response_not_named_address :
    convert_claims "hq" "address"
      [⟨"S1", ClaimFact.addr ⟨some "1 A", none, none, some "X",
        none, none, none, none⟩⟩] =
      [⟨"S1", "hq-street", "string", PyVal.str "1 A"⟩,
       ⟨"S1", "hq-city", "string", PyVal.str "X"⟩] ∧
    (build_response
      [⟨"S1", PyVal.str "1 A", "hq-street", "string", 1/2, 1/2⟩,
       ⟨"S1", PyVal.str "X", "hq-city", "string", 1/2, 1/3⟩]).map RespObj.name =
      some "hq-street" ∧
    ("hq-street" : String) ≠ "address" := by
  refine ⟨rfl, ?_, by decide⟩
  have hsub : strHasSub "hq-street" "address" = false := by decide
  have hsort : sort_desc
      [⟨"S1", PyVal.str "1 A", "hq-street", "string", 1/2, 1/2⟩,
       ⟨"S1", PyVal.str "X", "hq-city", "string", 1/2, 1/3⟩] =
      [⟨"S1", PyVal.str "1 A", "hq-street", "string", 1/2, 1/2⟩,
       ⟨"S1", PyVal.str "X", "hq-city", "string", 1/2, 1/3⟩] := by
    unfold sort_desc
    simp only [List.foldr, insert_desc_nil, insert_desc_cons]
    norm_num
  unfold build_response
  simp only [List.head?, hsub, Bool.false_eq_true, if_false, hsort]
  simp [optionMapM, coerce_fact]

/-- Claim C7 (as amended): the normalization emits exactly the two rows
`hq-street` and `hq-city` with facts "1 A" and "X"; for any confidences the
response element for this object is built by the generic branch with
name "hq-street" (the first row's object) and one claim per row, because
no row's object value contains the substring "address" — the merged
`name = "address"` form only arises when the object's name contains
"address". -/
theorem C7_address_normalization (c1 c2 : ℝ) :
    convert_claims "hq" "address"
      [⟨"S1", ClaimFact.addr ⟨some "1 A", none, none, some "X",
        none, none, none, none⟩⟩] =
      [⟨"S1", "hq-street", "string", PyVal.str "1 A"⟩,
       ⟨"S1", "hq-city", "string", PyVal.str "X"⟩] ∧
    ∃ resp, build_response
        [⟨"S1", PyVal.str "1 A", "hq-street", "string", 1/2, c1⟩,
         ⟨"S1", PyVal.str "X", "hq-city", "string", 1/2, c2⟩] = some resp ∧
      resp.name = "hq-street" ∧ resp.claims.length = 2 := by
  refine ⟨rfl, ?_⟩
  have hsub : strHasSub "hq-street" "address" = false := by decide
  unfold build_response
  simp only [List.head?, hsub, Bool.false_eq_true, if_false]
  by_cases hc : c1 > c2
  · have hsort : sort_desc
        [⟨"S1", PyVal.str "1 A", "hq-street", "string", 1/2, c1⟩,
         ⟨"S1", PyVal.str "X", "hq-city", "string", 1/2, c2⟩] =
        [⟨"S1", PyVal.str "1 A", "hq-street", "string", 1/2, c1⟩,
         ⟨"S1", PyVal.str "X", "hq-city", "string", 1/2, c2⟩] := by
      unfold sort_desc
      simp only [List.foldr, insert_desc_nil, insert_desc_cons]
      rw [if_pos hc]
    rw [hsort]
    simp [optionMapM, coerce_fact]
  · have hsort : sort_desc
        [⟨"S1", PyVal.str "1 A", "hq-street", "string", 1/2, c1⟩,
         ⟨"S1", PyVal.str "X", "hq-city", "string", 1/2, c2⟩] =
        [⟨"S1", PyVal.str "X", "hq-city", "string", 1/2, c2⟩,
         ⟨"S1", PyVal.str "1 A", "hq-street", "string", 1/2, c1⟩] := by
      unfold sort_desc
      simp only [List.foldr, insert_desc_nil, insert_desc_cons]
      rw [if_neg hc]
    rw [hsort]
    simp [optionMapM, coerce_fact]

theorem conf_eval_two (t1 t2 : ℝ) (h1 : t1 < 1) (h2 : t2 < 1) :
    confidence_score
      [⟨"S1", PyVal.str "red", "color", "categorical", t1, 0⟩,
       ⟨"S2", PyVal.str "blue", "color", "categorical", t2, 0⟩] =
      some [⟨"S1", PyVal.str "red", "color", "categorical", t1, -Real.log (1 - t1)⟩,
            ⟨"S2", PyVal.str "blue", "color", "categorical", t2, -Real.log (1 - t2)⟩] := by
  have e1 : trustworthiness_score t1 = some (-Real.log (1 - t1)) := by
    rw [trustworthiness_score, if_pos (by linarith)]
  have e2 : trustworthiness_score t2 = some (-Real.log (1 - t2)) := by
    rw [trustworthiness_score, if_pos (by linarith)]
  unfold confidence_score
  simp +decide [optionMapM, pyEq, e1, e2]

theorem adj_eval_two (influence_related : ℝ) (jw : PyVal → PyVal → ℝ)
    (t1 t2 c1 c2 : ℝ) :
    adjusted_confidence_score influence_related jw
      [⟨"S1", PyVal.str "red", "color", "categorical", t1, c1⟩,
       ⟨"S2", PyVal.str "blue", "color", "categorical", t2, c2⟩] =
      some [⟨"S1", PyVal.str "red", "color", "categorical", t1,
              c1 - influence_related * c2⟩,
            ⟨"S2", PyVal.str "blue", "color", "categorical", t2,
              c2 - influence_related * c1⟩] := by
  unfold adjusted_confidence_score
  simp +decide [optionMapM, related_sum, related_contrib, drop_duplicates_fact,
    pyEq, categorical_implication]
  constructor <;> ring

theorem cfc_eval_two (dampening_factor : ℝ) (t1 t2 c1 c2 : ℝ) :
    compute_fact_confidence dampening_factor
      [⟨"S1", PyVal.str "red", "color", "categorical", t1, c1⟩,
       ⟨"S2", PyVal.str "blue", "color", "categorical", t2, c2⟩] =
      [⟨"S1", PyVal.str "red", "color", "categorical", t1,
          sigmoid (dampening_factor * c1)⟩,
       ⟨"S2", PyVal.str "blue", "color", "categorical", t2,
          sigmoid (dampening_factor * c2)⟩] := by
  simp [compute_fact_confidence]

theorem ust_eval_two (t1 t2 c1 c2 : ℝ) :
    update_source_trustworthiness
      [⟨"S1", PyVal.str "red", "color", "categorical", t1, c1⟩,
       ⟨"S2", PyVal.str "blue", "color", "categorical", t2, c2⟩] =
      [⟨"S1", PyVal.str "red", "color", "categorical", c1, c1⟩,
       ⟨"S2", PyVal.str "blue", "color", "categorical", c2, c2⟩] := by
  unfold update_source_trustworthiness
  simp +decide [List.foldl, uniqueStrs]

theorem run_eval_two (dampening_factor influence_related : ℝ)
    (jw : PyVal → PyVal → ℝ) (t1 t2 : ℝ) (h1 : t1 < 1) (h2 : t2 < 1) :
    run dampening_factor influence_related jw
      [⟨"S1", PyVal.str "red", "color", "categorical", t1, 0⟩,
       ⟨"S2", PyVal.str "blue", "color", "categorical", t2, 0⟩] 1 (1/10000) =
      some [⟨"S1", PyVal.str "red", "color", "categorical",
              sigmoid (dampening_factor *
                (-Real.log (1 - t1) - influence_related * -Real.log (1 - t2))),
              sigmoid (dampening_factor *
                (-Real.log (1 - t1) - influence_related * -Real.log (1 - t2)))⟩,
            ⟨"S2", PyVal.str "blue", "color", "categorical",
              sigmoid (dampening_factor *
                (-Real.log (1 - t2) - influence_related * -Real.log (1 - t1))),
              sigmoid (dampening_factor *
                (-Real.log (1 - t2) - influence_related * -Real.log (1 - t1)))⟩] := by
  unfold run iteration update_fact_confidence
  simp +decide [uniqueStrs, optionFoldlM, splice_back, conf_eval_two t1 t2 h1 h2,
    adj_eval_two, cfc_eval_two, ust_eval_two]

/-- The fact carried by a response claim (generic branch). -/
def respFact : RespClaim → Option PyVal
  | .addr _ _ => none
  | .entry f _ _ => some f

/-- The sourceId carried by a response claim (generic branch). -/
def respSource : RespClaim → Option String
  | .addr _ _ => none
  | .entry _ _ s => some s

theorem build_response_two (t1 t2 F1 F2 : ℝ) (h : F2 < F1) :
    build_response
      [⟨"S1", PyVal.str "red", "color", "categorical", t1, F1⟩,
       ⟨"S2", PyVal.str "blue", "color", "categorical", t2, F2⟩] =
      some ⟨"color", [RespClaim.entry (PyVal.str "red") (round3 F1) "S1",
                      RespClaim.entry (PyVal.str "blue") (round3 F2) "S2"]⟩ := by
  have hsub : strHasSub "color" "address" = false := by decide
  unfold build_response
  simp only [List.head?, hsub, Bool.false_eq_true, if_false]
  have hsort : sort_desc
      [⟨"S1", PyVal.str "red", "color", "categorical", t1, F1⟩,
       ⟨"S2", PyVal.str "blue", "color", "categorical", t2, F2⟩] =
      [⟨"S1", PyVal.str "red", "color", "categorical", t1, F1⟩,
       ⟨"S2", PyVal.str "blue", "color", "categorical", t2, F2⟩] := by
    unfold sort_desc
    simp only [List.foldr, insert_desc_nil, insert_desc_cons]
    rw [if_pos h]
  rw [hsort]
  simp +decide [optionMapM, coerce_fact]

theorem sigmoid_lt_sigmoid {x y : ℝ} (h : x < y) : sigmoid x < sigmoid y := by
  unfold sigmoid
  have h1 : Real.exp (-y) < Real.exp (-x) := Real.exp_lt_exp.mpr (by linarith)
  have h2 : 0 < 1 + Real.exp (-y) := by positivity
  exact one_div_lt_one_div_of_lt h2 (by linarith)

/-- Claim C8: for the object "color" with categorical claims ("S1", "red")
and ("S2", "blue") and reputations 0.9 and 0.1, one TruthFinder iteration
gives red a strictly higher fact confidence than blue for every dampening
factor in (0,1) and influence parameter in [0,1], and the generic response
branch lists "red" (from "S1") before "blue" (from "S2"). -/
theorem C8_red_listed_before_blue (dampening_factor influence_related : ℝ)
    (jw : PyVal → PyVal → ℝ) (hd0 : 0 < dampening_factor)
    (hd1 : dampening_factor < 1) (hi0 : 0 ≤ influence_related)
    (hi1 : influence_related ≤ 1) :
    ∃ fR fB resp,
      run dampening_factor influence_related jw
        [⟨"S1", PyVal.str "red", "color", "categorical", 9/10, 0⟩,
         ⟨"S2", PyVal.str "blue", "color", "categorical", 1/10, 0⟩] 1 (1/10000) =
        some [⟨"S1", PyVal.str "red", "color", "categorical", fR, fR⟩,
              ⟨"S2", PyVal.str "blue", "color", "categorical", fB, fB⟩] ∧
      fB < fR ∧
      build_response
        [⟨"S1", PyVal.str "red", "color", "categorical", fR, fR⟩,
         ⟨"S2", PyVal.str "blue", "color", "categorical", fB, fB⟩] = some resp ∧
      resp.name = "color" ∧
      resp.claims.map respFact = [some (PyVal.str "red"), some (PyVal.str "blue")] ∧
      resp.claims.map respSource = [some "S1", some "S2"] := by
  have hlog : -Real.log (1 - (1/10 : ℝ)) < -Real.log (1 - (9/10 : ℝ)) := by
    have := Real.log_lt_log (show (0 : ℝ) < 1 - 9/10 by norm_num)
      (show (1 : ℝ) - 9/10 < 1 - 1/10 by norm_num)
    linarith
  have ha : -Real.log (1 - (1/10 : ℝ)) -
      influence_related * -Real.log (1 - (9/10 : ℝ)) <
      -Real.log (1 - (9/10 : ℝ)) -
      influence_related * -Real.log (1 - (1/10 : ℝ)) := by nlinarith
  have hmul : dampening_factor *
      (-Real.log (1 - (1/10 : ℝ)) -
        influence_related * -Real.log (1 - (9/10 : ℝ))) <
      dampening_factor *
      (-Real.log (1 - (9/10 : ℝ)) -
        influence_related * -Real.log (1 - (1/10 : ℝ))) :=
    mul_lt_mul_of_pos_left ha hd0
  have hf := sigmoid_lt_sigmoid hmul
  refine ⟨_, _, _,
    run_eval_two dampening_factor influence_related jw (9/10) (1/10)
      (by norm_num) (by norm_num),
    hf,
    build_response_two _ _ _ _ hf,
    rfl, rfl, rfl⟩

/-- Witness for C8 at the deployment defaults `DAMPENING = 0.1`,
`INFLUENCE = 0.8`, with the Jaro-Winkler similarity instantiated (its value
is irrelevant: the object is categorical). -/
theorem C8_red_listed_before_blue_witness :
    ∃ fR fB resp,
      run (1/10) (4/5) (fun _ _ => 0)
        [⟨"S1", PyVal.str "red", "color", "categorical", 9/10, 0⟩,
         ⟨"S2", PyVal.str "blue", "color", "categorical", 1/10, 0⟩] 1 (1/10000) =
        some [⟨"S1", PyVal.str "red", "color", "categorical", fR, fR⟩,
              ⟨"S2", PyVal.str "blue", "color", "categorical", fB, fB⟩] ∧
      fB < fR ∧
      build_response
        [⟨"S1", PyVal.str "red", "color", "categorical", fR, fR⟩,
         ⟨"S2", PyVal.str "blue", "color", "categorical", fB, fB⟩] = some resp ∧
      resp.name = "color" ∧
      resp.claims.map respFact = [some (PyVal.str "red"), some (PyVal.str "blue")] ∧
      resp.claims.map respSource = [some "S1", some "S2"] :=
  C8_red_listed_before_blue (1/10) (4/5) (fun _ _ => 0)
    (by norm_num) (by norm_num) (by norm_num) (by norm_num)
